import Mathlib

/-!
Shallow embedding of the batch notebook orchestrator of the
PyCaret-Examples repository: the three scripts
`scripts/run_all_notebooks.py`, `scripts/quick_test.py` and
`scripts/run_notebooks_papermill.py`.

Each script is a linear driver: it iterates a hardcoded ordered list of
notebook names, skips a notebook whose file does not exist, otherwise
invokes an external executor (jupyter nbconvert as a subprocess, or the
papermill library in-process) under a per-script timeout, records one
status string per notebook in an insertion-ordered dict, prints a report
(per-item lines followed by summary counts and the elapsed time), and
exits 1 when at least one notebook failed, 0 otherwise.

The external world is a parameter: the behavior of `Path.exists`, of
`subprocess.run` on a given command, and of `papermill.execute_notebook`
on a given input path, are fields of an environment value. Timestamps are
integers supplied to `main`.
-/

/-- The status string each script stores in its `results` dict:
`"SUCCESS"`, `"FAILED"` or `"SKIPPED"`. -/
inductive Status
  | SUCCESS
  | FAILED
  | SKIPPED
deriving DecidableEq, Repr

/-- Behavior of one `subprocess.run(cmd, check=True, capture_output=True)`
call: either the child process completes with a return code and captured
stderr (with `check=True`, a non-zero code raises `CalledProcessError`
carrying that stderr), or the call itself raises some other exception
(`OSError`, `FileNotFoundError`, ...) whose `str(e)` is `msg`. -/
inductive ExecBehavior
  | completes (returncode : Int) (stderr : String)
  | raises (msg : String)

/-- Behavior of one `papermill.execute_notebook` call: it either returns
normally or raises an exception whose `str(e)` is `msg`. -/
inductive PmBehavior
  | ok
  | raises (msg : String)

/-- The observable effect of one runner invocation: the argument list it
handed to the executor, the boolean it returned to `main`, and the error
text it printed (`none` on the success path). -/
structure NbRun where
  cmd : List String
  success : Bool
  diagnostic : Option String
deriving DecidableEq

/-- The conditional flag of `run_notebook`: appended to the command iff
`allow_errors` is true (`scripts/run_all_notebooks.py` line 44,
`scripts/quick_test.py` line 39). -/
def allow_errors_flag : String := "--ExecutePreprocessor.allow_errors=True"

/-- The nbconvert command built by `run_notebook` in
`scripts/run_all_notebooks.py` (lines 33-44). -/
def nbconvert_cmd (notebook_path : String) (timeout : Nat) (allow_errors : Bool) : List String :=
  let cmd := ["jupyter", "nbconvert", "--to", "notebook", "--execute", "--inplace",
              "--ExecutePreprocessor.timeout=" ++ toString timeout, notebook_path]
  if allow_errors then cmd ++ [allow_errors_flag] else cmd

/-- The nbconvert command built by `run_notebook` in
`scripts/quick_test.py` (lines 29-39): no `--inplace`, instead
`--output <path>` to overwrite in place. -/
def quick_cmd (notebook_path : String) (timeout : Nat) (allow_errors : Bool) : List String :=
  let cmd := ["jupyter", "nbconvert", "--to", "notebook", "--execute",
              "--ExecutePreprocessor.timeout=" ++ toString timeout, notebook_path,
              "--output", notebook_path]
  if allow_errors then cmd ++ [allow_errors_flag] else cmd

/-- `run_notebook` of `scripts/run_all_notebooks.py` (lines 14-64): builds
the command, runs it with `check=True`; returns `True` on a zero exit;
`except CalledProcessError` prints `e.stderr` and returns `False`;
`except Exception` prints `str(e)` and returns `False`. Totality of this
Lean function is the embedding of "never propagates an exception". -/
def run_notebook (notebook_path : String) (timeout : Nat) (allow_errors : Bool)
    (exec : List String → ExecBehavior) : NbRun :=
  let cmd := nbconvert_cmd notebook_path timeout allow_errors
  match exec cmd with
  | .completes rc stderr =>
      if rc = 0 then { cmd := cmd, success := true, diagnostic := none }
      else { cmd := cmd, success := false, diagnostic := some stderr }
  | .raises msg => { cmd := cmd, success := false, diagnostic := some msg }

/-- The truncation of `scripts/quick_test.py` line 49:
`e.stderr[-500:] if len(e.stderr) > 500 else e.stderr`. -/
def truncate_tail (s : String) : String :=
  if s.length > 500 then String.mk (s.data.drop (s.length - 500)) else s

/-- `run_notebook` of `scripts/quick_test.py` (lines 21-54): like the
full-suite runner but the `CalledProcessError` branch prints only the
last 500 characters of `e.stderr`; the generic `except Exception` branch
prints `str(e)` in full. -/
def quick_run_notebook (notebook_path : String) (timeout : Nat) (allow_errors : Bool)
    (exec : List String → ExecBehavior) : NbRun :=
  let cmd := quick_cmd notebook_path timeout allow_errors
  match exec cmd with
  | .completes rc stderr =>
      if rc = 0 then { cmd := cmd, success := true, diagnostic := none }
      else { cmd := cmd, success := false, diagnostic := some (truncate_tail stderr) }
  | .raises msg => { cmd := cmd, success := false, diagnostic := some msg }

/-- `run_notebook_papermill` of `scripts/run_notebooks_papermill.py`
(lines 37-76): calls `pm.execute_notebook(input, input, ...)` (the output
path defaults to the input path); returns `True` on normal return;
`except Exception` prints `str(e)` and returns `False`. The `cmd` field
records the input path the library call received. -/
def run_notebook_papermill (input_path : String)
    (pm_exec : String → PmBehavior) : NbRun :=
  match pm_exec input_path with
  | .ok => { cmd := [input_path], success := true, diagnostic := none }
  | .raises msg => { cmd := [input_path], success := false, diagnostic := some msg }

/-- The hardcoded work list shared by all three scripts
(`run_all_notebooks.py` lines 77-83, `quick_test.py` lines 73-79,
`run_notebooks_papermill.py` lines 97-103). -/
def notebooks : List String :=
  ["regression.ipynb", "clustering.ipynb", "anomaly-detection.ipynb",
   "association.ipynb", "time-series-forecasting.ipynb"]

/-- `notebooks_dir / notebook_name`: path join. -/
def nbPath (dir name : String) : String := dir ++ "/" ++ name

/-- Python dict assignment `results[k] = v` on an insertion-ordered dict
modelled as an association list: an existing key keeps its position and
gets the new value, a new key is appended. -/
def dictInsert (d : List (String × Status)) (k : String) (v : Status) :
    List (String × Status) :=
  if d.any (fun pr => pr.1 == k) then d.map (fun pr => if pr.1 == k then (k, v) else pr)
  else d ++ [(k, v)]

/-- The driver loop shared (up to the runner plugged in) by the three
`main` functions: for each name in order, if the path does not exist
record `SKIPPED` and continue, otherwise invoke the runner and record
`SUCCESS` or `FAILED` from its boolean. `calls` accumulates, in order,
one `(path, argument list)` entry per runner invocation actually made. -/
def batch_loop (exists_check : String → Bool) (dir : String) (runner : String → NbRun) :
    List String → List (String × Status) → List (String × List String) →
    List (String × Status) × List (String × List String)
  | [], results, calls => (results, calls)
  | name :: rest, results, calls =>
      let p := nbPath dir name
      if exists_check p = false then
        batch_loop exists_check dir runner rest (dictInsert results name .SKIPPED) calls
      else
        let r := runner p
        batch_loop exists_check dir runner rest
          (dictInsert results name (if r.success then .SUCCESS else .FAILED))
          (calls ++ [(p, r.cmd)])

/-- `sum(1 for status in results.values() if status == s)`. -/
def count_status (results : List (String × Status)) (s : Status) : Nat :=
  (results.filter (fun pr => pr.2 == s)).length

/-- One printed line of the report section of a script: a per-item line
(`emoji name: status`), one of the summary count lines, or the
`Total time:` line. Header/separator prints are not modelled. -/
inductive ReportLine
  | item (name : String) (status : Status)
  | successCount (n total : Nat)
  | failedCount (n total : Nat)
  | skippedCount (n total : Nat)
  | totalTime (duration : Int)
deriving DecidableEq

/-- Report of `run_all_notebooks.py` `main` (lines 105-122): per-item
lines in dict order, then `Successful`, `Failed`, `Skipped` counts (each
over `len(notebooks)`) and the total duration. -/
def run_all_report (results : List (String × Status)) (total : Nat) (duration : Int) :
    List ReportLine :=
  results.map (fun pr => ReportLine.item pr.1 pr.2)
  ++ [ReportLine.successCount (count_status results .SUCCESS) total,
      ReportLine.failedCount (count_status results .FAILED) total,
      ReportLine.skippedCount (count_status results .SKIPPED) total,
      ReportLine.totalTime duration]

/-- Report of `quick_test.py` `main` (lines 100-115): per-item lines,
then only `Passed` and `Failed` counts and the total duration — no
skipped count is computed or printed. -/
def quick_report (results : List (String × Status)) (total : Nat) (duration : Int) :
    List ReportLine :=
  results.map (fun pr => ReportLine.item pr.1 pr.2)
  ++ [ReportLine.successCount (count_status results .SUCCESS) total,
      ReportLine.failedCount (count_status results .FAILED) total,
      ReportLine.totalTime duration]

/-- Report of `run_notebooks_papermill.py` `main` (lines 130-147): same
shape as the full-suite report. -/
def pm_report (results : List (String × Status)) (total : Nat) (duration : Int) :
    List ReportLine :=
  results.map (fun pr => ReportLine.item pr.1 pr.2)
  ++ [ReportLine.successCount (count_status results .SUCCESS) total,
      ReportLine.failedCount (count_status results .FAILED) total,
      ReportLine.skippedCount (count_status results .SKIPPED) total,
      ReportLine.totalTime duration]

/-- Exit derivation of `run_all_notebooks.py` `main` (lines 125-134):
`sys.exit(1)` if `failed_count > 0` else `sys.exit(0)`. -/
def run_all_exit (results : List (String × Status)) : Nat :=
  if 0 < count_status results .FAILED then 1 else 0

/-- Exit derivation of `quick_test.py` `main` (lines 117-124). -/
def quick_exit (results : List (String × Status)) : Nat :=
  if 0 < count_status results .FAILED then 1 else 0

/-- Exit derivation of `run_notebooks_papermill.py` `main`
(lines 150-159). -/
def pm_exit (results : List (String × Status)) : Nat :=
  if 0 < count_status results .FAILED then 1 else 0

/-- External world of the two nbconvert-based scripts: the notebooks
directory, the behavior of `Path.exists` on a path, and the behavior of
`subprocess.run` on a command. -/
structure Env where
  dir : String
  exists_check : String → Bool
  exec : List String → ExecBehavior

/-- External world of the papermill script: additionally whether
`import papermill` succeeds and whether `uv add papermill` succeeds. -/
structure PmEnv where
  dir : String
  exists_check : String → Bool
  pm_exec : String → PmBehavior
  papermill_installed : Bool
  install_succeeds : Bool

/-- Everything observable about one `main` run: the final `results`
dict, the printed report lines, the `sys.exit` argument, and the trace
of runner invocations made. -/
structure MainResult where
  results : List (String × Status)
  report : List ReportLine
  exitCode : Nat
  calls : List (String × List String)
deriving DecidableEq

/-- `main` of `scripts/run_all_notebooks.py` (lines 67-134): loops over
`notebooks` with `run_notebook(notebook_path, timeout=1800)` (so
`allow_errors` keeps its default `False`), prints the summary, exits. -/
def run_all_main (env : Env) (start_time finish_time : Int) : MainResult :=
  let out := batch_loop env.exists_check env.dir
      (fun p => run_notebook p 1800 false env.exec) notebooks [] []
  { results := out.1
    report := run_all_report out.1 notebooks.length (finish_time - start_time)
    exitCode := run_all_exit out.1
    calls := out.2 }

/-- `main` of `scripts/quick_test.py` (lines 57-124): loops over
`notebooks` with `run_notebook(notebook_path, timeout=600,
allow_errors=False)`, prints the summary, exits. -/
def quick_main (env : Env) (start_time finish_time : Int) : MainResult :=
  let out := batch_loop env.exists_check env.dir
      (fun p => quick_run_notebook p 600 false env.exec) notebooks [] []
  { results := out.1
    report := quick_report out.1 notebooks.length (finish_time - start_time)
    exitCode := quick_exit out.1
    calls := out.2 }

/-- `main` of `scripts/run_notebooks_papermill.py` (lines 79-159): if
papermill is not importable and `uv add papermill` fails, `sys.exit(1)`
before any notebook is touched; otherwise loop with
`run_notebook_papermill(notebook_path)`, print the summary, exit. -/
def papermill_main (env : PmEnv) (start_time finish_time : Int) : MainResult :=
  if env.papermill_installed = false ∧ env.install_succeeds = false then
    { results := [], report := [], exitCode := 1, calls := [] }
  else
    let out := batch_loop env.exists_check env.dir
        (fun p => run_notebook_papermill p env.pm_exec) notebooks [] []
    { results := out.1
      report := pm_report out.1 notebooks.length (finish_time - start_time)
      exitCode := pm_exit out.1
      calls := out.2 }

/-- The status the loop records for one name, as a function of the
environment alone (used to characterize the loop's output). -/
def item_status (exists_check : String → Bool) (dir : String) (runner : String → NbRun)
    (name : String) : Status :=
  if exists_check (nbPath dir name) = false then .SKIPPED
  else if (runner (nbPath dir name)).success then .SUCCESS else .FAILED

/-- `True` iff the character list `needle` occurs at the start of `hay`. -/
def charsMatchAt : List Char → List Char → Bool
  | [], _ => true
  | _ :: _, [] => false
  | c :: cs, d :: ds => c == d && charsMatchAt cs ds

/-- `True` iff `needle` occurs contiguously somewhere in `hay`. -/
def hasSub (needle : List Char) : List Char → Bool
  | [] => charsMatchAt needle []
  | d :: ds => charsMatchAt needle (d :: ds) || hasSub needle ds

/-- Whether a diagnostic string mentions the word "timeout". -/
def mentions_timeout (s : String) : Bool := hasSub "timeout".data s.data

/-! ## Structural lemmas about the driver loop -/

theorem dictInsert_of_not_mem (d : List (String × Status)) (k : String) (v : Status)
    (h : ∀ pr ∈ d, pr.1 ≠ k) : dictInsert d k v = d ++ [(k, v)] := by
  unfold dictInsert
  have hany : d.any (fun pr => pr.1 == k) = false := by
    simp [List.any_eq_false]
    intro a b hab
    exact h (a, b) hab
  rw [hany]
  simp

theorem batch_loop_results (ec : String → Bool) (dir : String) (runner : String → NbRun) :
    ∀ (names : List String) (res : List (String × Status)) (calls : List (String × List String)),
    names.Nodup → (∀ nm ∈ names, ∀ pr ∈ res, pr.1 ≠ nm) →
    (batch_loop ec dir runner names res calls).1
      = res ++ names.map (fun nm => (nm, item_status ec dir runner nm)) := by
  intro names
  induction names with
  | nil => intro res calls _ _; simp [batch_loop]
  | cons nm rest ih =>
    intro res calls hnd hks
    have hnm_rest : nm ∉ rest := (List.nodup_cons.mp hnd).1
    have hnd_rest : rest.Nodup := (List.nodup_cons.mp hnd).2
    have hkey : ∀ pr ∈ res, pr.1 ≠ nm := fun pr hpr => hks nm (by simp) pr hpr
    have hks_next : ∀ st : Status, ∀ nm2 ∈ rest, ∀ pr ∈ res ++ [(nm, st)], pr.1 ≠ nm2 := by
      intro st nm2 h2 pr hpr
      rcases List.mem_append.mp hpr with hin | hin
      · exact hks nm2 (by simp [h2]) pr hin
      · simp at hin
        subst hin
        simp
        intro heq
        exact hnm_rest (heq ▸ h2)
    by_cases hec : ec (nbPath dir nm) = false
    · have hstep : batch_loop ec dir runner (nm :: rest) res calls
          = batch_loop ec dir runner rest (dictInsert res nm .SKIPPED) calls := by
        simp [batch_loop, hec]
      rw [hstep, dictInsert_of_not_mem res nm Status.SKIPPED hkey,
          ih (res ++ [(nm, Status.SKIPPED)]) calls hnd_rest (hks_next Status.SKIPPED)]
      simp [item_status, hec]
    · have hect : ec (nbPath dir nm) = true := by
        cases h : ec (nbPath dir nm)
        · exact absurd h hec
        · rfl
      have hstep : batch_loop ec dir runner (nm :: rest) res calls
          = batch_loop ec dir runner rest
              (dictInsert res nm (if (runner (nbPath dir nm)).success then .SUCCESS else .FAILED))
              (calls ++ [(nbPath dir nm, (runner (nbPath dir nm)).cmd)]) := by
        simp [batch_loop, hect]
      rw [hstep, dictInsert_of_not_mem res nm _ hkey,
          ih _ _ hnd_rest (hks_next _)]
      simp [item_status, hect]

theorem batch_loop_calls (ec : String → Bool) (dir : String) (runner : String → NbRun) :
    ∀ (names : List String) (res : List (String × Status)) (calls : List (String × List String)),
    (batch_loop ec dir runner names res calls).2
      = calls ++ (names.filter (fun nm => ec (nbPath dir nm))).map
          (fun nm => (nbPath dir nm, (runner (nbPath dir nm)).cmd)) := by
  intro names
  induction names with
  | nil => intro res calls; simp [batch_loop]
  | cons nm rest ih =>
    intro res calls
    by_cases hec : ec (nbPath dir nm) = false
    · have hstep : batch_loop ec dir runner (nm :: rest) res calls
          = batch_loop ec dir runner rest (dictInsert res nm .SKIPPED) calls := by
        simp [batch_loop, hec]
      rw [hstep, ih]
      simp [List.filter_cons, hec]
    · have hect : ec (nbPath dir nm) = true := by
        cases h : ec (nbPath dir nm)
        · exact absurd h hec
        · rfl
      have hstep : batch_loop ec dir runner (nm :: rest) res calls
          = batch_loop ec dir runner rest
              (dictInsert res nm (if (runner (nbPath dir nm)).success then .SUCCESS else .FAILED))
              (calls ++ [(nbPath dir nm, (runner (nbPath dir nm)).cmd)]) := by
        simp [batch_loop, hect]
      rw [hstep, ih]
      simp [List.filter_cons, hect]

theorem count_status_partition (r : List (String × Status)) :
    count_status r .SUCCESS + count_status r .FAILED + count_status r .SKIPPED = r.length := by
  induction r with
  | nil => rfl
  | cons pr rest ih =>
    obtain ⟨name, st⟩ := pr
    cases st <;>
      simp only [count_status, List.filter_cons, beq_iff_eq, List.length_cons,
        decide_eq_true_eq] at * <;>
      split_ifs <;> simp_all <;> omega

theorem lookup_map_self (f : String → Status) :
    ∀ (names : List String) (nm : String), nm ∈ names →
    (names.map (fun x => (x, f x))).lookup nm = some (f nm) := by
  intro names
  induction names with
  | nil => intro nm h; cases h
  | cons a rest ih =>
    intro nm h
    by_cases ha : nm = a
    · subst ha
      simp [List.lookup]
    · have hmem : nm ∈ rest := by
        rcases List.mem_cons.mp h with h1 | h1
        · exact absurd h1 ha
        · exact h1
      have hbeq : (nm == a) = false := by
        simp [ha]
      simp [List.lookup, hbeq]
      exact ih nm hmem

theorem nbPath_data (dir name : String) :
    (nbPath dir name).data = dir.data ++ '/' :: name.data := by
  unfold nbPath
  rw [String.data_append, String.data_append]
  have hslash : ("/" : String).data = ['/'] := rfl
  rw [hslash]
  simp

theorem nbPath_inj (dir a b : String) (h : nbPath dir a = nbPath dir b) : a = b := by
  have h2 := congrArg String.data h
  rw [nbPath_data, nbPath_data] at h2
  have h3 : a.data = b.data := by
    have h4 := List.append_cancel_left h2
    simpa using h4
  cases a
  cases b
  exact congrArg String.mk h3

theorem slash_mem_nbPath (dir name : String) : '/' ∈ (nbPath dir name).data := by
  rw [nbPath_data]
  simp

/-! ## Characterizations of the three `main` functions -/

theorem notebooks_nodup : notebooks.Nodup := by decide

theorem run_all_results_char (env : Env) (s e : Int) :
    (run_all_main env s e).results = notebooks.map (fun nm =>
      (nm, item_status env.exists_check env.dir
        (fun p => run_notebook p 1800 false env.exec) nm)) := by
  show (batch_loop env.exists_check env.dir
      (fun p => run_notebook p 1800 false env.exec) notebooks [] []).1 = _
  rw [batch_loop_results env.exists_check env.dir _ notebooks [] [] notebooks_nodup
      (by intro nm _ pr hpr; cases hpr)]
  simp

theorem run_all_calls_char (env : Env) (s e : Int) :
    (run_all_main env s e).calls
      = (notebooks.filter (fun nm => env.exists_check (nbPath env.dir nm))).map
          (fun nm => (nbPath env.dir nm,
            (run_notebook (nbPath env.dir nm) 1800 false env.exec).cmd)) := by
  show (batch_loop env.exists_check env.dir
      (fun p => run_notebook p 1800 false env.exec) notebooks [] []).2 = _
  rw [batch_loop_calls env.exists_check env.dir _ notebooks [] []]
  simp

theorem quick_results_char (env : Env) (s e : Int) :
    (quick_main env s e).results = notebooks.map (fun nm =>
      (nm, item_status env.exists_check env.dir
        (fun p => quick_run_notebook p 600 false env.exec) nm)) := by
  show (batch_loop env.exists_check env.dir
      (fun p => quick_run_notebook p 600 false env.exec) notebooks [] []).1 = _
  rw [batch_loop_results env.exists_check env.dir _ notebooks [] [] notebooks_nodup
      (by intro nm _ pr hpr; cases hpr)]
  simp

theorem quick_calls_char (env : Env) (s e : Int) :
    (quick_main env s e).calls
      = (notebooks.filter (fun nm => env.exists_check (nbPath env.dir nm))).map
          (fun nm => (nbPath env.dir nm,
            (quick_run_notebook (nbPath env.dir nm) 600 false env.exec).cmd)) := by
  show (batch_loop env.exists_check env.dir
      (fun p => quick_run_notebook p 600 false env.exec) notebooks [] []).2 = _
  rw [batch_loop_calls env.exists_check env.dir _ notebooks [] []]
  simp

theorem papermill_not_aborted (env : PmEnv) (hp : env.papermill_installed = true)
    (s e : Int) :
    papermill_main env s e =
      { results := (batch_loop env.exists_check env.dir
          (fun p => run_notebook_papermill p env.pm_exec) notebooks [] []).1
        report := pm_report (batch_loop env.exists_check env.dir
          (fun p => run_notebook_papermill p env.pm_exec) notebooks [] []).1
          notebooks.length (e - s)
        exitCode := pm_exit (batch_loop env.exists_check env.dir
          (fun p => run_notebook_papermill p env.pm_exec) notebooks [] []).1
        calls := (batch_loop env.exists_check env.dir
          (fun p => run_notebook_papermill p env.pm_exec) notebooks [] []).2 } := by
  unfold papermill_main
  rw [if_neg]
  intro hcon
  rw [hp] at hcon
  exact absurd hcon.1 (by simp)

theorem papermill_results_char (env : PmEnv) (hp : env.papermill_installed = true)
    (s e : Int) :
    (papermill_main env s e).results = notebooks.map (fun nm =>
      (nm, item_status env.exists_check env.dir
        (fun p => run_notebook_papermill p env.pm_exec) nm)) := by
  rw [papermill_not_aborted env hp s e]
  show (batch_loop env.exists_check env.dir
      (fun p => run_notebook_papermill p env.pm_exec) notebooks [] []).1 = _
  rw [batch_loop_results env.exists_check env.dir _ notebooks [] [] notebooks_nodup
      (by intro nm _ pr hpr; cases hpr)]
  simp

theorem papermill_calls_char (env : PmEnv) (hp : env.papermill_installed = true)
    (s e : Int) :
    (papermill_main env s e).calls
      = (notebooks.filter (fun nm => env.exists_check (nbPath env.dir nm))).map
          (fun nm => (nbPath env.dir nm,
            (run_notebook_papermill (nbPath env.dir nm) env.pm_exec).cmd)) := by
  rw [papermill_not_aborted env hp s e]
  show (batch_loop env.exists_check env.dir
      (fun p => run_notebook_papermill p env.pm_exec) notebooks [] []).2 = _
  rw [batch_loop_calls env.exists_check env.dir _ notebooks [] []]
  simp

/-! ## Claim theorems -/

/-- C1: for every finalized batch, the derived process exit status is 0
if and only if the failure count is 0, and any failure count of at least
1 yields exit status 1; the skipped count plays no role (the results
list, and with it its skipped count, is arbitrary). Stated for the exit
derivations of all three scripts. -/
theorem c1_exit_code_law (r : List (String × Status)) :
    (run_all_exit r = 0 ↔ count_status r .FAILED = 0)
    ∧ (1 ≤ count_status r .FAILED → run_all_exit r = 1)
    ∧ (quick_exit r = 0 ↔ count_status r .FAILED = 0)
    ∧ (1 ≤ count_status r .FAILED → quick_exit r = 1)
    ∧ (pm_exit r = 0 ↔ count_status r .FAILED = 0)
    ∧ (1 ≤ count_status r .FAILED → pm_exit r = 1) := by
  have key : ∀ x : Nat, ((if 0 < x then (1 : Nat) else 0) = 0 ↔ x = 0)
      ∧ (1 ≤ x → (if 0 < x then (1 : Nat) else 0) = 1) := by
    intro x
    constructor
    · split_ifs with h
      · constructor
        · intro h2
          exact absurd h2 (by simp)
        · intro h2
          omega
      · constructor
        · intro h2
          omega
        · intro h2
          rfl
    · intro hx
      rw [if_pos (by omega)]
  exact ⟨(key _).1, (key _).2, (key _).1, (key _).2, (key _).1, (key _).2⟩

/-- Witness for C1 at a concrete batch: one failed plus one skipped item
exits 1; a lone skipped item exits 0. -/
theorem c1_exit_code_law_witness :
    run_all_exit [("regression.ipynb", Status.FAILED), ("clustering.ipynb", Status.SKIPPED)] = 1
    ∧ quick_exit [("clustering.ipynb", Status.SKIPPED)] = 0 := by
  have h1 := c1_exit_code_law
    [("regression.ipynb", Status.FAILED), ("clustering.ipynb", Status.SKIPPED)]
  have h2 := c1_exit_code_law [("clustering.ipynb", Status.SKIPPED)]
  exact ⟨h1.2.1 (by decide), h2.2.2.1.mpr (by decide)⟩

/-- C4: after the driver loop completes, the three status counts sum to
the number of declared work items, for the full-suite and the papermill
drivers (the papermill driver reaches its loop when the library is
importable). -/
theorem c4_counts_partition (env : Env) (penv : PmEnv) (s e : Int)
    (hp : penv.papermill_installed = true) :
    count_status (run_all_main env s e).results .SUCCESS
      + count_status (run_all_main env s e).results .FAILED
      + count_status (run_all_main env s e).results .SKIPPED
      = notebooks.length
    ∧ count_status (papermill_main penv s e).results .SUCCESS
      + count_status (papermill_main penv s e).results .FAILED
      + count_status (papermill_main penv s e).results .SKIPPED
      = notebooks.length := by
  constructor
  · rw [count_status_partition (run_all_main env s e).results,
        run_all_results_char env s e, List.length_map]
  · rw [count_status_partition (papermill_main penv s e).results,
        papermill_results_char penv hp s e, List.length_map]

/-- Witness for C4 at a concrete environment in which every notebook
exists and succeeds. -/
theorem c4_counts_partition_witness :
    count_status (run_all_main
        ⟨"nb", fun _ => true, fun _ => ExecBehavior.completes 0 ""⟩ 0 0).results .SUCCESS
      + count_status (run_all_main
        ⟨"nb", fun _ => true, fun _ => ExecBehavior.completes 0 ""⟩ 0 0).results .FAILED
      + count_status (run_all_main
        ⟨"nb", fun _ => true, fun _ => ExecBehavior.completes 0 ""⟩ 0 0).results .SKIPPED
      = notebooks.length
    ∧ count_status (papermill_main
        ⟨"nb", fun _ => true, fun _ => PmBehavior.ok, true, true⟩ 0 0).results .SUCCESS
      + count_status (papermill_main
        ⟨"nb", fun _ => true, fun _ => PmBehavior.ok, true, true⟩ 0 0).results .FAILED
      + count_status (papermill_main
        ⟨"nb", fun _ => true, fun _ => PmBehavior.ok, true, true⟩ 0 0).results .SKIPPED
      = notebooks.length :=
  c4_counts_partition ⟨"nb", fun _ => true, fun _ => ExecBehavior.completes 0 ""⟩
    ⟨"nb", fun _ => true, fun _ => PmBehavior.ok, true, true⟩ 0 0 rfl

/-- The names carried by the per-item lines of a report, in print
order. -/
def report_item_names (report : List ReportLine) : List String :=
  report.filterMap (fun l => match l with
    | ReportLine.item name _ => some name
    | _ => none)

/-- C5: in every batch of the full-suite and quick-test scripts, the
per-item outcome lines appear in the report in exactly the order the
work items were declared in the work list. -/
theorem c5_report_order (env qenv : Env) (s e : Int) :
    report_item_names (run_all_main env s e).report = notebooks
    ∧ report_item_names (quick_main qenv s e).report = notebooks := by
  constructor
  · show report_item_names (run_all_report (run_all_main env s e).results
        notebooks.length (e - s)) = notebooks
    rw [run_all_results_char env s e]
    unfold run_all_report report_item_names
    simp [List.filterMap_append, List.filterMap_map]
    rfl
  · show report_item_names (quick_report (quick_main qenv s e).results
        notebooks.length (e - s)) = notebooks
    rw [quick_results_char qenv s e]
    unfold quick_report report_item_names
    simp [List.filterMap_append, List.filterMap_map]
    rfl

/-- C10: every terminating run of each `main` exits with status exactly
0 or exactly 1, and the papermill prerequisite abort (library missing
and not installable) exits 1 with no runner invocation made. -/
theorem c10_exit_binary (env qenv : Env) (penv : PmEnv) (s e : Int) :
    ((run_all_main env s e).exitCode = 0 ∨ (run_all_main env s e).exitCode = 1)
    ∧ ((quick_main qenv s e).exitCode = 0 ∨ (quick_main qenv s e).exitCode = 1)
    ∧ ((papermill_main penv s e).exitCode = 0 ∨ (papermill_main penv s e).exitCode = 1)
    ∧ (penv.papermill_installed = false → penv.install_succeeds = false →
        (papermill_main penv s e).exitCode = 1 ∧ (papermill_main penv s e).calls = []) := by
  refine ⟨?_, ?_, ?_, ?_⟩
  · show run_all_exit (run_all_main env s e).results = 0
      ∨ run_all_exit (run_all_main env s e).results = 1
    unfold run_all_exit
    split_ifs <;> simp
  · show quick_exit (quick_main qenv s e).results = 0
      ∨ quick_exit (quick_main qenv s e).results = 1
    unfold quick_exit
    split_ifs <;> simp
  · unfold papermill_main
    split_ifs with h
    · right
      rfl
    · show pm_exit _ = 0 ∨ pm_exit _ = 1
      unfold pm_exit
      split_ifs <;> simp
  · intro hi hs2
    unfold papermill_main
    rw [if_pos ⟨hi, hs2⟩]
    exact ⟨rfl, rfl⟩

/-- Witness for C10 at a concrete environment with papermill missing and
not installable. -/
theorem c10_exit_binary_witness :
    (papermill_main ⟨"nb", fun _ => true, fun _ => PmBehavior.ok, false, false⟩ 0 0).exitCode = 1
    ∧ (papermill_main ⟨"nb", fun _ => true, fun _ => PmBehavior.ok, false, false⟩ 0 0).calls = [] :=
  (c10_exit_binary ⟨"nb", fun _ => true, fun _ => ExecBehavior.completes 0 ""⟩
    ⟨"nb", fun _ => true, fun _ => ExecBehavior.completes 0 ""⟩
    ⟨"nb", fun _ => true, fun _ => PmBehavior.ok, false, false⟩ 0 0).2.2.2 rfl rfl

/-! ## Runner-invocation lemmas -/

theorem run_notebook_completes (p : String) (t : Nat) (ae : Bool)
    (exec : List String → ExecBehavior) (rc : Int) (stderr : String)
    (h : exec (nbconvert_cmd p t ae) = ExecBehavior.completes rc stderr) :
    run_notebook p t ae exec
      = if rc = 0 then ⟨nbconvert_cmd p t ae, true, none⟩
        else ⟨nbconvert_cmd p t ae, false, some stderr⟩ := by
  simp only [run_notebook, h]

theorem run_notebook_raises (p : String) (t : Nat) (ae : Bool)
    (exec : List String → ExecBehavior) (msg : String)
    (h : exec (nbconvert_cmd p t ae) = ExecBehavior.raises msg) :
    run_notebook p t ae exec = ⟨nbconvert_cmd p t ae, false, some msg⟩ := by
  simp only [run_notebook, h]

theorem quick_run_notebook_completes (p : String) (t : Nat) (ae : Bool)
    (exec : List String → ExecBehavior) (rc : Int) (stderr : String)
    (h : exec (quick_cmd p t ae) = ExecBehavior.completes rc stderr) :
    quick_run_notebook p t ae exec
      = if rc = 0 then ⟨quick_cmd p t ae, true, none⟩
        else ⟨quick_cmd p t ae, false, some (truncate_tail stderr)⟩ := by
  simp only [quick_run_notebook, h]

theorem quick_run_notebook_raises (p : String) (t : Nat) (ae : Bool)
    (exec : List String → ExecBehavior) (msg : String)
    (h : exec (quick_cmd p t ae) = ExecBehavior.raises msg) :
    quick_run_notebook p t ae exec = ⟨quick_cmd p t ae, false, some msg⟩ := by
  simp only [quick_run_notebook, h]

theorem run_notebook_cmd (p : String) (t : Nat) (ae : Bool)
    (exec : List String → ExecBehavior) :
    (run_notebook p t ae exec).cmd = nbconvert_cmd p t ae := by
  cases h : exec (nbconvert_cmd p t ae) with
  | completes rc stderr =>
      rw [run_notebook_completes p t ae exec rc stderr h]
      split_ifs <;> rfl
  | raises msg => rw [run_notebook_raises p t ae exec msg h]

theorem quick_run_notebook_cmd (p : String) (t : Nat) (ae : Bool)
    (exec : List String → ExecBehavior) :
    (quick_run_notebook p t ae exec).cmd = quick_cmd p t ae := by
  cases h : exec (quick_cmd p t ae) with
  | completes rc stderr =>
      rw [quick_run_notebook_completes p t ae exec rc stderr h]
      split_ifs <;> rfl
  | raises msg => rw [quick_run_notebook_raises p t ae exec msg h]

/-- C2: no runner invocation propagates an uncaught error (each embedded
runner is a total function of the executor's behavior), and every
underlying fault — a process completing with a non-zero exit, or a raised
exception, for the two subprocess-based runners and the papermill
runner — is converted to the failure outcome (`False` returned) carrying
a diagnostic string; the success path carries no diagnostic. -/
theorem c2_runner_converts_faults (p : String) (t : Nat) (ae : Bool)
    (exec : List String → ExecBehavior) (pm_exec : String → PmBehavior) :
    ((run_notebook p t ae exec).success = true ∧ (run_notebook p t ae exec).diagnostic = none
      ∨ (run_notebook p t ae exec).success = false
        ∧ ∃ d, (run_notebook p t ae exec).diagnostic = some d)
    ∧ (∀ rc stderr, exec (nbconvert_cmd p t ae) = ExecBehavior.completes rc stderr → rc ≠ 0 →
        (run_notebook p t ae exec).success = false
        ∧ (run_notebook p t ae exec).diagnostic = some stderr)
    ∧ (∀ msg, exec (nbconvert_cmd p t ae) = ExecBehavior.raises msg →
        (run_notebook p t ae exec).success = false
        ∧ (run_notebook p t ae exec).diagnostic = some msg)
    ∧ ((quick_run_notebook p t ae exec).success = true
        ∧ (quick_run_notebook p t ae exec).diagnostic = none
      ∨ (quick_run_notebook p t ae exec).success = false
        ∧ ∃ d, (quick_run_notebook p t ae exec).diagnostic = some d)
    ∧ (∀ rc stderr, exec (quick_cmd p t ae) = ExecBehavior.completes rc stderr → rc ≠ 0 →
        (quick_run_notebook p t ae exec).success = false
        ∧ (quick_run_notebook p t ae exec).diagnostic = some (truncate_tail stderr))
    ∧ (∀ msg, exec (quick_cmd p t ae) = ExecBehavior.raises msg →
        (quick_run_notebook p t ae exec).success = false
        ∧ (quick_run_notebook p t ae exec).diagnostic = some msg)
    ∧ ((run_notebook_papermill p pm_exec).success = true
        ∧ (run_notebook_papermill p pm_exec).diagnostic = none
      ∨ (run_notebook_papermill p pm_exec).success = false
        ∧ ∃ d, (run_notebook_papermill p pm_exec).diagnostic = some d)
    ∧ (∀ msg, pm_exec p = PmBehavior.raises msg →
        (run_notebook_papermill p pm_exec).success = false
        ∧ (run_notebook_papermill p pm_exec).diagnostic = some msg) := by
  refine ⟨?_, ?_, ?_, ?_, ?_, ?_, ?_, ?_⟩
  · cases h : exec (nbconvert_cmd p t ae) with
    | completes rc stderr =>
        rw [run_notebook_completes p t ae exec rc stderr h]
        by_cases hrc : rc = 0
        · rw [if_pos hrc]
          left
          exact ⟨rfl, rfl⟩
        · rw [if_neg hrc]
          right
          exact ⟨rfl, stderr, rfl⟩
    | raises msg =>
        rw [run_notebook_raises p t ae exec msg h]
        right
        exact ⟨rfl, msg, rfl⟩
  · intro rc stderr h hrc
    rw [run_notebook_completes p t ae exec rc stderr h, if_neg hrc]
    exact ⟨rfl, rfl⟩
  · intro msg h
    rw [run_notebook_raises p t ae exec msg h]
    exact ⟨rfl, rfl⟩
  · cases h : exec (quick_cmd p t ae) with
    | completes rc stderr =>
        rw [quick_run_notebook_completes p t ae exec rc stderr h]
        by_cases hrc : rc = 0
        · rw [if_pos hrc]
          left
          exact ⟨rfl, rfl⟩
        · rw [if_neg hrc]
          right
          exact ⟨rfl, truncate_tail stderr, rfl⟩
    | raises msg =>
        rw [quick_run_notebook_raises p t ae exec msg h]
        right
        exact ⟨rfl, msg, rfl⟩
  · intro rc stderr h hrc
    rw [quick_run_notebook_completes p t ae exec rc stderr h, if_neg hrc]
    exact ⟨rfl, rfl⟩
  · intro msg h
    rw [quick_run_notebook_raises p t ae exec msg h]
    exact ⟨rfl, rfl⟩
  · cases h : pm_exec p with
    | ok =>
        left
        constructor <;> simp [run_notebook_papermill, h]
    | raises msg =>
        right
        refine ⟨?_, msg, ?_⟩ <;> simp [run_notebook_papermill, h]
  · intro msg h
    constructor <;> simp [run_notebook_papermill, h]

/-- Witness for C2 at a concrete executor that raises. -/
theorem c2_runner_converts_faults_witness :
    (run_notebook "nb/regression.ipynb" 1800 false
        (fun _ => ExecBehavior.raises "boom")).success = false
    ∧ (run_notebook "nb/regression.ipynb" 1800 false
        (fun _ => ExecBehavior.raises "boom")).diagnostic = some "boom" :=
  (c2_runner_converts_faults "nb/regression.ipynb" 1800 false
    (fun _ => ExecBehavior.raises "boom") (fun _ => PmBehavior.ok)).2.2.1 "boom" rfl

/-- An item whose path is reported missing is marked skipped. -/
theorem item_status_of_missing (ec : String → Bool) (dir : String)
    (runner : String → NbRun) (name : String)
    (h : ec (nbPath dir name) = false) :
    item_status ec dir runner name = Status.SKIPPED := by
  unfold item_status
  rw [if_pos h]

/-- A missing item's path never appears in the calls trace of the
loop, because only names passing the existence check are invoked. -/
theorem missing_not_called (ec : String → Bool) (dir : String) (runner : String → NbRun)
    (names : List String) (name : String) (h : ec (nbPath dir name) = false) :
    ∀ c ∈ (names.filter (fun nm => ec (nbPath dir nm))).map
        (fun nm => (nbPath dir nm, (runner (nbPath dir nm)).cmd)),
      c.1 ≠ nbPath dir name := by
  intro c hc
  obtain ⟨nm, hnm, hceq⟩ := List.mem_map.mp hc
  obtain ⟨hmem, hecnm⟩ := List.mem_filter.mp hnm
  intro hbad
  rw [← hceq] at hbad
  simp only [] at hbad
  have hnn : nm = name := nbPath_inj dir nm name hbad
  rw [hnn] at hecnm
  simp only [h] at hecnm
  cases hecnm

/-- C3: for every work item whose path fails the existence check, the
recorded outcome is skipped and the runner invocation is never called
for that item (its path never appears in the calls trace); the driver
continues and records one outcome for every declared item. Stated for
all three drivers. -/
theorem c3_missing_items_skipped (env qenv : Env) (penv : PmEnv) (s e : Int)
    (name : String) (hmem : name ∈ notebooks)
    (h1 : env.exists_check (nbPath env.dir name) = false)
    (h2 : qenv.exists_check (nbPath qenv.dir name) = false)
    (h3 : penv.exists_check (nbPath penv.dir name) = false)
    (hp : penv.papermill_installed = true) :
    ((run_all_main env s e).results.lookup name = some Status.SKIPPED
      ∧ (∀ c ∈ (run_all_main env s e).calls, c.1 ≠ nbPath env.dir name))
    ∧ ((quick_main qenv s e).results.lookup name = some Status.SKIPPED
      ∧ (∀ c ∈ (quick_main qenv s e).calls, c.1 ≠ nbPath qenv.dir name))
    ∧ ((papermill_main penv s e).results.lookup name = some Status.SKIPPED
      ∧ (∀ c ∈ (papermill_main penv s e).calls, c.1 ≠ nbPath penv.dir name))
    ∧ (∀ nm ∈ notebooks, ∃ st, (run_all_main env s e).results.lookup nm = some st) := by
  refine ⟨⟨?_, ?_⟩, ⟨?_, ?_⟩, ⟨?_, ?_⟩, ?_⟩
  · rw [run_all_results_char env s e,
        lookup_map_self _ notebooks name hmem,
        item_status_of_missing _ _ _ name h1]
  · rw [run_all_calls_char env s e]
    exact missing_not_called env.exists_check env.dir
      (fun p => run_notebook p 1800 false env.exec) notebooks name h1
  · rw [quick_results_char qenv s e,
        lookup_map_self _ notebooks name hmem,
        item_status_of_missing _ _ _ name h2]
  · rw [quick_calls_char qenv s e]
    exact missing_not_called qenv.exists_check qenv.dir
      (fun p => quick_run_notebook p 600 false qenv.exec) notebooks name h2
  · rw [papermill_results_char penv hp s e,
        lookup_map_self _ notebooks name hmem,
        item_status_of_missing _ _ _ name h3]
  · rw [papermill_calls_char penv hp s e]
    exact missing_not_called penv.exists_check penv.dir
      (fun p => run_notebook_papermill p penv.pm_exec) notebooks name h3
  · intro nm hnm
    rw [run_all_results_char env s e, lookup_map_self _ notebooks nm hnm]
    exact ⟨_, rfl⟩

/-- Witness for C3: with every existence check failing, the first
notebook is recorded skipped and its path is absent from the (empty)
calls trace of each driver. -/
theorem c3_missing_items_skipped_witness :
    (run_all_main ⟨"nb", fun _ => false, fun _ => ExecBehavior.completes 0 ""⟩ 0 0).results.lookup
        "regression.ipynb" = some Status.SKIPPED
    ∧ (papermill_main ⟨"nb", fun _ => false, fun _ => PmBehavior.ok, true, true⟩ 0 0).results.lookup
        "regression.ipynb" = some Status.SKIPPED := by
  have h := c3_missing_items_skipped
    ⟨"nb", fun _ => false, fun _ => ExecBehavior.completes 0 ""⟩
    ⟨"nb", fun _ => false, fun _ => ExecBehavior.completes 0 ""⟩
    ⟨"nb", fun _ => false, fun _ => PmBehavior.ok, true, true⟩ 0 0
    "regression.ipynb" (by decide) rfl rfl rfl rfl
  exact ⟨h.1.1, h.2.2.1.1⟩

/-- An item whose path exists and whose runner reports failure is
recorded failed. -/
theorem item_status_of_failure (ec : String → Bool) (dir : String)
    (runner : String → NbRun) (name : String)
    (hex : ec (nbPath dir name) = true)
    (hfail : (runner (nbPath dir name)).success = false) :
    item_status ec dir runner name = Status.FAILED := by
  unfold item_status
  rw [hex, hfail]
  simp

/-- C6: when an item's execution exceeds its timeout, the executor
surfaces the expiry as a fault (a non-zero nbconvert exit whose captured
stderr mentions the timeout, or a raised papermill exception whose text
does); the runner invocation converts it, like any other fault, into the
failure outcome carrying that diagnostic, the batch records `FAILED` for
the item, and the driver still records one outcome for every declared
item — it neither drops the outcome nor crashes. -/
theorem c6_timeout_is_failure (env : Env) (penv : PmEnv) (s e : Int)
    (name : String) (rc : Int) (errtext pmmsg : String)
    (hmem : name ∈ notebooks)
    (hex : env.exists_check (nbPath env.dir name) = true)
    (hbe : env.exec (nbconvert_cmd (nbPath env.dir name) 1800 false)
      = ExecBehavior.completes rc errtext)
    (hrc : rc ≠ 0)
    (htm : mentions_timeout errtext = true)
    (hpex : penv.exists_check (nbPath penv.dir name) = true)
    (hpbe : penv.pm_exec (nbPath penv.dir name) = PmBehavior.raises pmmsg)
    (hptm : mentions_timeout pmmsg = true)
    (hp : penv.papermill_installed = true) :
    ((run_notebook (nbPath env.dir name) 1800 false env.exec).success = false
      ∧ (run_notebook (nbPath env.dir name) 1800 false env.exec).diagnostic = some errtext
      ∧ mentions_timeout errtext = true)
    ∧ (run_all_main env s e).results.lookup name = some Status.FAILED
    ∧ (∀ nm ∈ notebooks, ∃ st, (run_all_main env s e).results.lookup nm = some st)
    ∧ ((run_notebook_papermill (nbPath penv.dir name) penv.pm_exec).success = false
      ∧ (run_notebook_papermill (nbPath penv.dir name) penv.pm_exec).diagnostic = some pmmsg
      ∧ mentions_timeout pmmsg = true)
    ∧ (papermill_main penv s e).results.lookup name = some Status.FAILED
    ∧ (∀ nm ∈ notebooks, ∃ st, (papermill_main penv s e).results.lookup nm = some st) := by
  have hrun : run_notebook (nbPath env.dir name) 1800 false env.exec
      = ⟨nbconvert_cmd (nbPath env.dir name) 1800 false, false, some errtext⟩ := by
    rw [run_notebook_completes _ _ _ _ rc errtext hbe, if_neg hrc]
  have hpm : run_notebook_papermill (nbPath penv.dir name) penv.pm_exec
      = ⟨[nbPath penv.dir name], false, some pmmsg⟩ := by
    simp only [run_notebook_papermill, hpbe]
  refine ⟨⟨?_, ?_, htm⟩, ?_, ?_, ⟨?_, ?_, hptm⟩, ?_, ?_⟩
  · rw [hrun]
  · rw [hrun]
  · rw [run_all_results_char env s e, lookup_map_self _ notebooks name hmem,
        item_status_of_failure _ _ _ name hex (by rw [hrun])]
  · intro nm hnm
    rw [run_all_results_char env s e, lookup_map_self _ notebooks nm hnm]
    exact ⟨_, rfl⟩
  · rw [hpm]
  · rw [hpm]
  · rw [papermill_results_char penv hp s e, lookup_map_self _ notebooks name hmem,
        item_status_of_failure _ _ _ name hpex (by rw [hpm])]
  · intro nm hnm
    rw [papermill_results_char penv hp s e, lookup_map_self _ notebooks nm hnm]
    exact ⟨_, rfl⟩

/-- Witness for C6 with a stub executor whose fault text mentions the
timeout. -/
theorem c6_timeout_is_failure_witness :
    (run_all_main ⟨"nb", fun _ => true,
        fun _ => ExecBehavior.completes 1 "Cell execution timeout exceeded"⟩ 0 0).results.lookup
      "regression.ipynb" = some Status.FAILED
    ∧ (papermill_main ⟨"nb", fun _ => true,
        fun _ => PmBehavior.raises "papermill cell timeout", true, true⟩ 0 0).results.lookup
      "regression.ipynb" = some Status.FAILED := by
  have h := c6_timeout_is_failure
    ⟨"nb", fun _ => true, fun _ => ExecBehavior.completes 1 "Cell execution timeout exceeded"⟩
    ⟨"nb", fun _ => true, fun _ => PmBehavior.raises "papermill cell timeout", true, true⟩
    0 0 "regression.ipynb" 1 "Cell execution timeout exceeded" "papermill cell timeout"
    (by decide) rfl rfl (by decide) (by decide) rfl rfl (by decide) rfl
  exact ⟨h.2.1, h.2.2.2.2.1⟩

/-- The allow-errors flag is not a path: every path the drivers build
contains a slash and the flag contains none. -/
theorem flag_ne_path (dir nm : String) : allow_errors_flag ≠ nbPath dir nm := by
  intro h
  have hs : '/' ∈ (nbPath dir nm).data := slash_mem_nbPath dir nm
  rw [← h] at hs
  exact absurd hs (by decide)

theorem flag_not_mem_run_all_cmd (dir nm : String) :
    allow_errors_flag ∉ nbconvert_cmd (nbPath dir nm) 1800 false := by
  intro hmem
  have h8 : nbconvert_cmd (nbPath dir nm) 1800 false
      = ["jupyter", "nbconvert", "--to", "notebook", "--execute", "--inplace",
         "--ExecutePreprocessor.timeout=" ++ toString 1800, nbPath dir nm] := rfl
  rw [h8] at hmem
  simp only [List.mem_cons, List.not_mem_nil, or_false] at hmem
  rcases hmem with h | h | h | h | h | h | h | h
  · exact absurd h (by decide)
  · exact absurd h (by decide)
  · exact absurd h (by decide)
  · exact absurd h (by decide)
  · exact absurd h (by decide)
  · exact absurd h (by decide)
  · exact absurd h (by decide)
  · exact flag_ne_path dir nm h

theorem flag_not_mem_quick_cmd (dir nm : String) :
    allow_errors_flag ∉ quick_cmd (nbPath dir nm) 600 false := by
  intro hmem
  have h9 : quick_cmd (nbPath dir nm) 600 false
      = ["jupyter", "nbconvert", "--to", "notebook", "--execute",
         "--ExecutePreprocessor.timeout=" ++ toString 600, nbPath dir nm,
         "--output", nbPath dir nm] := rfl
  rw [h9] at hmem
  simp only [List.mem_cons, List.not_mem_nil, or_false] at hmem
  rcases hmem with h | h | h | h | h | h | h | h | h
  · exact absurd h (by decide)
  · exact absurd h (by decide)
  · exact absurd h (by decide)
  · exact absurd h (by decide)
  · exact absurd h (by decide)
  · exact absurd h (by decide)
  · exact flag_ne_path dir nm h
  · exact absurd h (by decide)
  · exact flag_ne_path dir nm h

/-- C9: in every batch run started from `main` of the two nbconvert
scripts, the runner invocation is always called with `allow_errors`
equal to `False`: every executed command equals the command built with
`allow_errors = false`, and the allow-errors flag never occurs in an
executed command. The flag-appending branch exists — with
`allow_errors = true` it would append exactly that flag — but is never
taken from `main`. -/
theorem c9_allow_errors_always_false (env qenv : Env) (s e : Int) :
    (∀ c ∈ (run_all_main env s e).calls,
      c.2 = nbconvert_cmd c.1 1800 false ∧ allow_errors_flag ∉ c.2)
    ∧ (∀ c ∈ (quick_main qenv s e).calls,
      c.2 = quick_cmd c.1 600 false ∧ allow_errors_flag ∉ c.2)
    ∧ (∀ (p2 : String) (t2 : Nat),
      nbconvert_cmd p2 t2 true = nbconvert_cmd p2 t2 false ++ [allow_errors_flag]
      ∧ quick_cmd p2 t2 true = quick_cmd p2 t2 false ++ [allow_errors_flag]) := by
  refine ⟨?_, ?_, ?_⟩
  · intro c hc
    rw [run_all_calls_char env s e] at hc
    obtain ⟨nm, hnm, hceq⟩ := List.mem_map.mp hc
    subst hceq
    constructor
    · show (run_notebook (nbPath env.dir nm) 1800 false env.exec).cmd
        = nbconvert_cmd (nbPath env.dir nm) 1800 false
      exact run_notebook_cmd (nbPath env.dir nm) 1800 false env.exec
    · show allow_errors_flag ∉ (run_notebook (nbPath env.dir nm) 1800 false env.exec).cmd
      rw [run_notebook_cmd (nbPath env.dir nm) 1800 false env.exec]
      exact flag_not_mem_run_all_cmd env.dir nm
  · intro c hc
    rw [quick_calls_char qenv s e] at hc
    obtain ⟨nm, hnm, hceq⟩ := List.mem_map.mp hc
    subst hceq
    constructor
    · show (quick_run_notebook (nbPath qenv.dir nm) 600 false qenv.exec).cmd
        = quick_cmd (nbPath qenv.dir nm) 600 false
      exact quick_run_notebook_cmd (nbPath qenv.dir nm) 600 false qenv.exec
    · show allow_errors_flag ∉ (quick_run_notebook (nbPath qenv.dir nm) 600 false qenv.exec).cmd
      rw [quick_run_notebook_cmd (nbPath qenv.dir nm) 600 false qenv.exec]
      exact flag_not_mem_quick_cmd qenv.dir nm
  · intro p2 t2
    exact ⟨rfl, rfl⟩

/-- Witness for C9: the first command actually executed by the
full-suite driver in a concrete environment does not contain the
allow-errors flag. -/
theorem c9_allow_errors_always_false_witness :
    allow_errors_flag ∉ ["jupyter", "nbconvert", "--to", "notebook", "--execute", "--inplace",
      "--ExecutePreprocessor.timeout=1800", "nb/regression.ipynb"] :=
  ((c9_allow_errors_always_false
      ⟨"nb", fun _ => true, fun _ => ExecBehavior.completes 0 ""⟩
      ⟨"nb", fun _ => true, fun _ => ExecBehavior.completes 0 ""⟩ 0 0).1
    ("nb/regression.ipynb",
      ["jupyter", "nbconvert", "--to", "notebook", "--execute", "--inplace",
       "--ExecutePreprocessor.timeout=1800", "nb/regression.ipynb"])
    (by decide)).2

/-- A captured stderr of 501 characters, used to exhibit the missing
truncation in the full-suite runner. -/
def long_err : String := String.mk ('x' :: List.replicate 500 'a')

theorem long_err_length : long_err.length = 501 := by
  show ('x' :: List.replicate 500 'a').length = 501
  rw [List.length_cons, List.length_replicate]

/-- C7 counterexample: `run_notebook` of `run_all_notebooks.py` prints
the captured error text in full — on a 501-character stderr the
displayed diagnostic is the whole 501-character string, not the
500-character tail the claim requires for every Failure outcome. -/
theorem c7_counterexample :
    500 < long_err.length
    ∧ (run_notebook "nb/regression.ipynb" 1800 false
        (fun _ => ExecBehavior.completes 1 long_err)).diagnostic = some long_err
    ∧ (truncate_tail long_err).length = 500
    ∧ (run_notebook "nb/regression.ipynb" 1800 false
        (fun _ => ExecBehavior.completes 1 long_err)).diagnostic
      ≠ some (truncate_tail long_err) := by
  have hlen : long_err.length = 501 := long_err_length
  have hdiag : (run_notebook "nb/regression.ipynb" 1800 false
      (fun _ => ExecBehavior.completes 1 long_err)).diagnostic = some long_err := by
    rw [run_notebook_completes "nb/regression.ipynb" 1800 false
      (fun _ => ExecBehavior.completes 1 long_err) 1 long_err rfl]
    rw [if_neg (by omega : (1 : Int) ≠ 0)]
  have htr : (truncate_tail long_err).length = 500 := by
    unfold truncate_tail
    rw [if_pos (by omega)]
    show (long_err.data.drop (long_err.length - 500)).length = 500
    rw [List.length_drop]
    have hdl : long_err.data.length = 501 := hlen
    omega
  refine ⟨by omega, hdiag, htr, ?_⟩
  rw [hdiag]
  intro hcon
  have h2 : long_err = truncate_tail long_err := Option.some.inj hcon
  have h3 : long_err.length = (truncate_tail long_err).length := by rw [← h2]
  rw [hlen, htr] at h3
  exact absurd h3 (by omega)

set_option maxRecDepth 4000 in
/-- C7 amended: only the quick-test runner truncates. For a process
failure its displayed diagnostic is `e.stderr[-500:]` — exactly the last
500 characters when the captured text exceeds 500 characters, the full
text otherwise — while the full-suite runner displays the captured error
text whole, with no truncation. -/
theorem c7_truncation_amended (p : String) (t : Nat)
    (exec : List String → ExecBehavior) (rc : Int) (stderr : String)
    (hq : exec (quick_cmd p t false) = ExecBehavior.completes rc stderr)
    (ha : exec (nbconvert_cmd p t false) = ExecBehavior.completes rc stderr)
    (hrc : rc ≠ 0) :
    (quick_run_notebook p t false exec).diagnostic = some (truncate_tail stderr)
    ∧ (500 < stderr.length →
        (truncate_tail stderr).data = stderr.data.drop (stderr.length - 500)
        ∧ (truncate_tail stderr).length = 500)
    ∧ (stderr.length ≤ 500 → truncate_tail stderr = stderr)
    ∧ (run_notebook p t false exec).diagnostic = some stderr := by
  refine ⟨?_, ?_, ?_, ?_⟩
  · rw [quick_run_notebook_completes p t false exec rc stderr hq, if_neg hrc]
  · intro hlong
    unfold truncate_tail
    rw [if_pos (by omega)]
    constructor
    · rfl
    · show (stderr.data.drop (stderr.length - 500)).length = 500
      rw [List.length_drop]
      have hdl : stderr.data.length = stderr.length := rfl
      omega
  · intro hshort
    unfold truncate_tail
    rw [if_neg (by omega)]
  · rw [run_notebook_completes p t false exec rc stderr ha, if_neg hrc]

/-- Witness for the amended C7 at a concrete short stderr. -/
theorem c7_truncation_amended_witness :
    (quick_run_notebook "nb/regression.ipynb" 600 false
        (fun _ => ExecBehavior.completes 2 "boom")).diagnostic = some (truncate_tail "boom")
    ∧ (run_notebook "nb/regression.ipynb" 600 false
        (fun _ => ExecBehavior.completes 2 "boom")).diagnostic = some "boom" := by
  have h := c7_truncation_amended "nb/regression.ipynb" 600
    (fun _ => ExecBehavior.completes 2 "boom") 2 "boom" rfl rfl (by omega)
  exact ⟨h.1, h.2.2.2⟩

/-- C8 counterexample: in a concrete batch in which every item is
skipped, the quick-test report records the skipped outcome in its
per-item lines yet its summary contains no skipped-count line at all —
the claim that every summary states all three counts fails on
`quick_test.py`. -/
theorem c8_counterexample :
    (quick_main ⟨"nb", fun _ => false, fun _ => ExecBehavior.completes 0 ""⟩ 0 0).results.lookup
      "regression.ipynb" = some Status.SKIPPED
    ∧ (quick_main ⟨"nb", fun _ => false, fun _ => ExecBehavior.completes 0 ""⟩ 0 0).report.countP
      (fun l => match l with
        | ReportLine.skippedCount _ _ => true
        | _ => false) = 0 := by
  constructor
  · decide
  · decide

/-- C8 amended: the full-suite and papermill aggregators emit one
per-item line per work item in declaration order followed by the
success, failure and skipped counts and the total duration
`finished - started`; the quick-test aggregator emits the per-item lines
in declaration order but its summary states only the success and failure
counts plus the duration, never a skipped count. -/
theorem c8_report_shape_amended (env qenv : Env) (penv : PmEnv) (s e : Int)
    (hp : penv.papermill_installed = true) :
    ((run_all_main env s e).report
      = (run_all_main env s e).results.map (fun pr => ReportLine.item pr.1 pr.2)
        ++ [ReportLine.successCount
              (count_status (run_all_main env s e).results .SUCCESS) notebooks.length,
            ReportLine.failedCount
              (count_status (run_all_main env s e).results .FAILED) notebooks.length,
            ReportLine.skippedCount
              (count_status (run_all_main env s e).results .SKIPPED) notebooks.length,
            ReportLine.totalTime (e - s)]
      ∧ report_item_names (run_all_main env s e).report = notebooks)
    ∧ ((papermill_main penv s e).report
      = (papermill_main penv s e).results.map (fun pr => ReportLine.item pr.1 pr.2)
        ++ [ReportLine.successCount
              (count_status (papermill_main penv s e).results .SUCCESS) notebooks.length,
            ReportLine.failedCount
              (count_status (papermill_main penv s e).results .FAILED) notebooks.length,
            ReportLine.skippedCount
              (count_status (papermill_main penv s e).results .SKIPPED) notebooks.length,
            ReportLine.totalTime (e - s)]
      ∧ report_item_names (papermill_main penv s e).report = notebooks)
    ∧ ((quick_main qenv s e).report
      = (quick_main qenv s e).results.map (fun pr => ReportLine.item pr.1 pr.2)
        ++ [ReportLine.successCount
              (count_status (quick_main qenv s e).results .SUCCESS) notebooks.length,
            ReportLine.failedCount
              (count_status (quick_main qenv s e).results .FAILED) notebooks.length,
            ReportLine.totalTime (e - s)]
      ∧ report_item_names (quick_main qenv s e).report = notebooks
      ∧ (quick_main qenv s e).report.countP (fun l => match l with
          | ReportLine.skippedCount _ _ => true
          | _ => false) = 0) := by
  refine ⟨⟨rfl, ?_⟩, ⟨?_, ?_⟩, rfl, ?_, ?_⟩
  · show report_item_names (run_all_report (run_all_main env s e).results
        notebooks.length (e - s)) = notebooks
    rw [run_all_results_char env s e]
    unfold run_all_report report_item_names
    simp [List.filterMap_append, List.filterMap_map]
    rfl
  · rw [papermill_not_aborted penv hp s e]
    rfl
  · rw [papermill_not_aborted penv hp s e]
    show report_item_names (pm_report (batch_loop penv.exists_check penv.dir
        (fun p => run_notebook_papermill p penv.pm_exec) notebooks [] []).1
        notebooks.length (e - s)) = notebooks
    have hres : (batch_loop penv.exists_check penv.dir
        (fun p => run_notebook_papermill p penv.pm_exec) notebooks [] []).1
        = notebooks.map (fun nm => (nm, item_status penv.exists_check penv.dir
            (fun p => run_notebook_papermill p penv.pm_exec) nm)) := by
      have h0 := papermill_results_char penv hp s e
      rw [papermill_not_aborted penv hp s e] at h0
      exact h0
    rw [hres]
    unfold pm_report report_item_names
    simp [List.filterMap_append, List.filterMap_map]
    rfl
  · show report_item_names (quick_report (quick_main qenv s e).results
        notebooks.length (e - s)) = notebooks
    rw [quick_results_char qenv s e]
    unfold quick_report report_item_names
    simp [List.filterMap_append, List.filterMap_map]
    rfl
  · show (quick_report (quick_main qenv s e).results
        notebooks.length (e - s)).countP _ = 0
    unfold quick_report
    rw [List.countP_append]
    have hmap : ((quick_main qenv s e).results.map
        (fun pr => ReportLine.item pr.1 pr.2)).countP (fun l => match l with
          | ReportLine.skippedCount _ _ => true
          | _ => false) = 0 := by
      rw [List.countP_eq_zero]
      intro l hl
      obtain ⟨pr, _, hpr⟩ := List.mem_map.mp hl
      rw [← hpr]
      simp
    rw [hmap]
    rfl

/-- Witness for the amended C8 at concrete environments. -/
theorem c8_report_shape_amended_witness :
    report_item_names (run_all_main ⟨"nb", fun _ => true,
        fun _ => ExecBehavior.completes 0 ""⟩ 0 0).report = notebooks
    ∧ (quick_main ⟨"nb", fun _ => true, fun _ => ExecBehavior.completes 0 ""⟩ 0 0).report.countP
      (fun l => match l with
        | ReportLine.skippedCount _ _ => true
        | _ => false) = 0 := by
  have h := c8_report_shape_amended
    ⟨"nb", fun _ => true, fun _ => ExecBehavior.completes 0 ""⟩
    ⟨"nb", fun _ => true, fun _ => ExecBehavior.completes 0 ""⟩
    ⟨"nb", fun _ => true, fun _ => PmBehavior.ok, true, true⟩ 0 0 rfl
  exact ⟨h.1.2, h.2.2.2.2⟩
